import Mathlib

/-!
Verification of the lazy native-function dispatcher in
`src/bun.js/bindings/JS2Native.cpp`.

The development shallowly embeds the C++ file:

* `ReadableStreamTag` mirrors the `enum ReadableStreamTag : int32_t`.
* `JSVal` models a `JSC::JSValue` argument as seen by the dispatcher:
  either an Int32 value, or a non-Int32 value carrying its textual form
  (what `toWTFString` would print) and the raw payload bits that an
  unchecked `asInt32()` would read in an optimized build.
* `Outcome V` is the dispatcher's result: a returned `EncodedJSValue`
  (`ok`), a fatal debug assertion (`assertionFailure`), a process
  abort via `CRASH_WITH_INFO` (`crash`), or undefined behavior from an
  unchecked memory access (`undefinedBehavior`), which in the C++ is a
  wild read (most likely a segfault), not a reported condition.
* `JS2NativeEnv G V` packages the externally supplied data the
  dispatcher consumes: the generated pointer table
  `js2nativePointers` and the three extern stream-source loaders.
* `jsDollarLazy` is the host function itself, parameterized by the
  build mode (`BUN_DEBUG` on or off) and the call frame's argument
  list.
-/

/-- Mirrors `enum ReadableStreamTag : int32_t` from JS2Native.cpp. -/
inductive ReadableStreamTag : Type where
  | Invalid
  | JavaScript
  | Blob
  | File
  | Direct
  | Bytes
deriving DecidableEq, Repr

/-- The numeric value each enumerator has in the C++ enum. -/
def ReadableStreamTag.toInt : ReadableStreamTag → Int
  | .Invalid => -1
  | .JavaScript => 0
  | .Blob => 1
  | .File => 2
  | .Direct => 3
  | .Bytes => 4

/-- A `JSC::JSValue` as the dispatcher observes it: `int32 n` is a value
for which `isInt32()` holds with `asInt32() = n`; `nonInt32 textual bits`
is any other value, where `textual` is its `toWTFString` rendering and
`bits` is what an unchecked `asInt32()` would read from its payload in an
optimized build. -/
inductive JSVal : Type where
  | int32 (n : Int)
  | nonInt32 (textual : String) (bits : Int)
deriving DecidableEq, Repr

/-- `JSValue::isInt32`. -/
def JSVal.isInt32 : JSVal → Bool
  | .int32 _ => true
  | .nonInt32 _ _ => false

/-- `JSValue::asInt32`, as executed without a preceding type check: on a
non-Int32 value it just reads the payload bits. -/
def JSVal.asInt32 : JSVal → Int
  | .int32 n => n
  | .nonInt32 _ bits => bits

/-- `JSValue::toWTFString`, abstracted: the textual form of the value. -/
def JSVal.toWTFString : JSVal → String
  | .int32 n => toString n
  | .nonInt32 textual _ => textual

/-- Sites at which the C++ performs an unchecked access that is undefined
behavior when its implicit precondition fails. -/
inductive UBSite : Type where
  | argumentRead
  | tableIndex (idx : Int)
deriving DecidableEq, Repr

/-- The observable outcome of one call to the dispatcher.  `crash` and
`assertionFailure` terminate the process; `undefinedBehavior` marks an
unchecked access outside its valid range (a wild read in the C++). -/
inductive Outcome (V : Type) : Type where
  | ok (v : V)
  | assertionFailure (msg : String)
  | crash (msg : String)
  | undefinedBehavior (site : UBSite)
deriving DecidableEq, Repr

/-- The external data `jsDollarLazy` consumes: the generated pointer table
`JS2NativeGenerated::js2nativePointers` and the three extern loader
functions.  `G` is the global-object type, `V` the `EncodedJSValue`
result type. -/
structure JS2NativeEnv (G V : Type) : Type where
  js2nativePointers : List (G → V)
  ByteBlob_JSReadableStreamSource_load : G → V
  FileReader_JSReadableStreamSource_load : G → V
  ByteStream_JSReadableStreamSource_load : G → V

/-- The `CRASH_WITH_INFO` message compiled in when `BUN_DEBUG` is set. -/
def debugCrashMessage : String :=
  "Invalid call to @native. If you aren't calling this directly then bug @paperdave as they made a mistake in the code generator"

/-- The `CRASH_WITH_INFO` message compiled in for optimized builds. -/
def releaseCrashMessage : String :=
  "Invalid call to @native. This should never be reached and is a bug in Bun or you got a handle to our internal code."

/-- The crash message selected by the build mode (`#if BUN_DEBUG`). -/
def crashMessage (debugBuild : Bool) : String :=
  if debugBuild then debugCrashMessage else releaseCrashMessage

/-- The fixed head of the `ASSERT_WITH_MESSAGE` format string in
`jsDollarLazy`; the textual form of the offending value follows it. -/
def lazyAssertHead : String := "In call to $lazy: expected Int32, got "

/-- Shallow embedding of `jsDollarLazy` from JS2Native.cpp.

`debugBuild` selects the `#if BUN_DEBUG` branches.  `callFrame` is the
argument list of the call; `uncheckedArgument(0)` on an empty frame is an
unchecked out-of-bounds read, modelled as `undefinedBehavior .argumentRead`.

The body follows the source line by line: read argument 0; in debug
builds assert it is Int32 (carrying its textual form in the message);
take `id = asInt32()`; if `id < 0` invoke `js2nativePointers[-id - 1]`
with no bounds check (an out-of-range index is undefined behavior);
otherwise switch on the reserved tags Blob, File, Bytes; any remaining
value reaches `CRASH_WITH_INFO`. -/
def jsDollarLazy {G V : Type} (env : JS2NativeEnv G V) (debugBuild : Bool)
    (lexicalGlobalObject : G) (callFrame : List JSVal) : Outcome V :=
  match callFrame with
  | [] => Outcome.undefinedBehavior UBSite.argumentRead
  | target :: _ =>
    if debugBuild && !target.isInt32 then
      Outcome.assertionFailure (lazyAssertHead ++ target.toWTFString)
    else
      let id : Int := target.asInt32
      if id < 0 then
        match env.js2nativePointers[(-id - 1).toNat]? with
        | some f => Outcome.ok (f lexicalGlobalObject)
        | none => Outcome.undefinedBehavior (UBSite.tableIndex (-id - 1))
      else if id = ReadableStreamTag.Blob.toInt then
        Outcome.ok (env.ByteBlob_JSReadableStreamSource_load lexicalGlobalObject)
      else if id = ReadableStreamTag.File.toInt then
        Outcome.ok (env.FileReader_JSReadableStreamSource_load lexicalGlobalObject)
      else if id = ReadableStreamTag.Bytes.toInt then
        Outcome.ok (env.ByteStream_JSReadableStreamSource_load lexicalGlobalObject)
      else
        Outcome.crash (crashMessage debugBuild)

/-- Substring occurrence over character lists, used to state that a
diagnostic mentions a phrase. -/
def listHasSub (pat : List Char) : List Char → Bool
  | [] => decide (pat = [])
  | c :: rest => List.isPrefixOf pat (c :: rest) || listHasSub pat rest

/-- `strHasSub s pat` holds when `pat` occurs contiguously in `s`. -/
def strHasSub (s pat : String) : Bool := listHasSub pat.toList s.toList

/-- A diagnostic names the internal "generator bug" cause. -/
def mentionsGeneratorBug (m : String) : Bool :=
  strHasSub m "mistake in the code generator" || strHasSub m "bug in Bun"

/-- A diagnostic names the "external misuse" cause. -/
def mentionsExternalMisuse (m : String) : Bool :=
  strHasSub m "calling this directly" || strHasSub m "handle to our internal code"

/-- A concrete environment over `G = Unit`, `V = Nat` with a one-entry
pointer table, used for witnesses and counterexamples. -/
def exEnv : JS2NativeEnv Unit Nat where
  js2nativePointers := [fun _ => 42]
  ByteBlob_JSReadableStreamSource_load := fun _ => 100
  FileReader_JSReadableStreamSource_load := fun _ => 200
  ByteStream_JSReadableStreamSource_load := fun _ => 300

/-- A concrete environment with a two-entry pointer table. -/
def exEnv2 : JS2NativeEnv Unit Nat where
  js2nativePointers := [fun _ => 7, fun _ => 8]
  ByteBlob_JSReadableStreamSource_load := fun _ => 100
  FileReader_JSReadableStreamSource_load := fun _ => 200
  ByteStream_JSReadableStreamSource_load := fun _ => 300

example : jsDollarLazy exEnv true () [JSVal.int32 (-1)] = Outcome.ok 42 := by decide

example : jsDollarLazy exEnv true () [JSVal.int32 1] = Outcome.ok 100 := by decide

example : jsDollarLazy exEnv true () [JSVal.int32 3]
    = Outcome.crash debugCrashMessage := by decide

example : jsDollarLazy exEnv true () [JSVal.int32 (-5)]
    = Outcome.undefinedBehavior (UBSite.tableIndex 4) := by decide

example : mentionsGeneratorBug debugCrashMessage = true := by decide

example : mentionsExternalMisuse releaseCrashMessage = true := by decide

/-- C1: for every negative token `t` with `0 ≤ -t-1 < N` (where `N` is the
size of the generated pointer table), dispatch invokes exactly
`js2nativePointers[-t-1]` with the calling global object and returns that
function's result unchanged, with no wrapping or translation. -/
theorem C1_negative_token_invokes_table {G V : Type} (env : JS2NativeEnv G V)
    (debugBuild : Bool) (g : G) (t : Int) (h1 : t < 0)
    (h2 : (-t - 1).toNat < env.js2nativePointers.length) :
    jsDollarLazy env debugBuild g [JSVal.int32 t]
      = Outcome.ok (env.js2nativePointers.get ⟨(-t - 1).toNat, h2⟩ g) := by
  simp [jsDollarLazy, JSVal.isInt32, JSVal.asInt32, h1, -Int.pred_toNat]
  rw [List.getElem?_eq_getElem h2]

/-- C1 witness: token `-1` against a two-entry table invokes `table[0]`,
whose result here is `7`. -/
theorem C1_witness :
    (-1 : Int) < 0
    ∧ (-(-1 : Int) - 1).toNat < exEnv2.js2nativePointers.length
    ∧ jsDollarLazy exEnv2 true () [JSVal.int32 (-1)] = Outcome.ok 7 := by
  refine ⟨by decide, by decide, ?_⟩
  have h := C1_negative_token_invokes_table exEnv2 true () (-1) (by decide) (by decide)
  simpa [exEnv2] using h

/-- C2: for every token equal to one of the three dispatched reserved tags
(Blob, File, Bytes), dispatch invokes exactly the corresponding loader and
returns its result unchanged, and the generated pointer table is never
accessed on that path: replacing the table with any other table leaves the
outcome unchanged. -/
theorem C2_reserved_tags_invoke_loaders {G V : Type} (env : JS2NativeEnv G V)
    (debugBuild : Bool) (g : G) :
    (jsDollarLazy env debugBuild g [JSVal.int32 ReadableStreamTag.Blob.toInt]
        = Outcome.ok (env.ByteBlob_JSReadableStreamSource_load g)
      ∧ jsDollarLazy env debugBuild g [JSVal.int32 ReadableStreamTag.File.toInt]
        = Outcome.ok (env.FileReader_JSReadableStreamSource_load g)
      ∧ jsDollarLazy env debugBuild g [JSVal.int32 ReadableStreamTag.Bytes.toInt]
        = Outcome.ok (env.ByteStream_JSReadableStreamSource_load g))
    ∧ ∀ table2 : List (G → V),
      (jsDollarLazy { env with js2nativePointers := table2 } debugBuild g
          [JSVal.int32 ReadableStreamTag.Blob.toInt]
        = jsDollarLazy env debugBuild g [JSVal.int32 ReadableStreamTag.Blob.toInt])
      ∧ (jsDollarLazy { env with js2nativePointers := table2 } debugBuild g
          [JSVal.int32 ReadableStreamTag.File.toInt]
        = jsDollarLazy env debugBuild g [JSVal.int32 ReadableStreamTag.File.toInt])
      ∧ (jsDollarLazy { env with js2nativePointers := table2 } debugBuild g
          [JSVal.int32 ReadableStreamTag.Bytes.toInt]
        = jsDollarLazy env debugBuild g [JSVal.int32 ReadableStreamTag.Bytes.toInt]) := by
  refine ⟨⟨?_, ?_, ?_⟩, fun table2 => ⟨?_, ?_, ?_⟩⟩ <;>
    simp [jsDollarLazy, JSVal.isInt32, JSVal.asInt32, ReadableStreamTag.toInt]

/-- C3: for every non-negative token that is not one of the three
dispatched reserved tags, dispatch reaches `CRASH_WITH_INFO` and never
returns a value to calling code. -/
theorem C3_unresolvable_nonnegative_crashes {G V : Type} (env : JS2NativeEnv G V)
    (debugBuild : Bool) (g : G) (t : Int) (h0 : 0 ≤ t)
    (h1 : t ≠ ReadableStreamTag.Blob.toInt)
    (h2 : t ≠ ReadableStreamTag.File.toInt)
    (h3 : t ≠ ReadableStreamTag.Bytes.toInt) :
    jsDollarLazy env debugBuild g [JSVal.int32 t]
      = Outcome.crash (crashMessage debugBuild) := by
  have hneg : ¬ t < 0 := not_lt.mpr h0
  simp only [ReadableStreamTag.toInt] at h1 h2 h3
  simp [jsDollarLazy, JSVal.isInt32, JSVal.asInt32, ReadableStreamTag.toInt,
    hneg, h1, h2, h3]

/-- C3 witness: token `5` (the first unused non-negative value) crashes in
a debug build with the debug diagnostic. -/
theorem C3_witness :
    (0 : Int) ≤ 5
    ∧ (5 : Int) ≠ ReadableStreamTag.Blob.toInt
    ∧ (5 : Int) ≠ ReadableStreamTag.File.toInt
    ∧ (5 : Int) ≠ ReadableStreamTag.Bytes.toInt
    ∧ jsDollarLazy exEnv true () [JSVal.int32 5] = Outcome.crash debugCrashMessage := by
  refine ⟨by decide, by decide, by decide, by decide, ?_⟩
  have h := C3_unresolvable_nonnegative_crashes exEnv true () 5
    (by decide) (by decide) (by decide) (by decide)
  simpa [crashMessage] using h

/-- C4 counterexample: the Invalid sentinel of `ReadableStreamTag` is `-1`,
which is negative, so dispatch takes the pointer-table branch and returns
`table[0]`'s result (`42` in `exEnv`) instead of reaching the failure
path. -/
theorem C4_counterexample :
    jsDollarLazy exEnv true () [JSVal.int32 ReadableStreamTag.Invalid.toInt]
      = Outcome.ok 42
    ∧ jsDollarLazy exEnv true () [JSVal.int32 ReadableStreamTag.Invalid.toInt]
      ≠ Outcome.crash debugCrashMessage
    ∧ jsDollarLazy exEnv true () [JSVal.int32 ReadableStreamTag.Invalid.toInt]
      ≠ Outcome.crash releaseCrashMessage := by
  refine ⟨by decide, by decide, by decide⟩

/-- C4 amended: when dispatch is called with the Invalid sentinel of the
Reserved Tag enumeration (`-1`) as the token, it is treated as a negative
table token: dispatch invokes `js2nativePointers[0]` whenever the table is
non-empty, and never reaches the failure path. -/
theorem C4_invalid_sentinel_hits_table {G V : Type} (env : JS2NativeEnv G V)
    (debugBuild : Bool) (g : G) (h : 0 < env.js2nativePointers.length) :
    jsDollarLazy env debugBuild g [JSVal.int32 ReadableStreamTag.Invalid.toInt]
      = Outcome.ok (env.js2nativePointers.get ⟨0, h⟩ g) := by
  simp [jsDollarLazy, JSVal.isInt32, JSVal.asInt32, ReadableStreamTag.toInt,
    List.getElem?_eq_getElem h]

/-- C4 witness: against the one-entry table of `exEnv`, the Invalid
sentinel invokes `table[0]` and yields `42`. -/
theorem C4_witness :
    0 < exEnv.js2nativePointers.length
    ∧ jsDollarLazy exEnv false () [JSVal.int32 ReadableStreamTag.Invalid.toInt]
      = Outcome.ok 42 := by
  refine ⟨by decide, ?_⟩
  have h := C4_invalid_sentinel_hits_table exEnv false () (by decide)
  simpa [exEnv] using h

/-- C5: for every negative token, dispatch computes `index = -token - 1`
and accesses `js2nativePointers[index]` with no runtime bounds check:
when the precondition `0 ≤ -token-1 < tableLength` holds the access yields
`table[index]`'s result, and when it is violated no check intercepts the
access — the outcome is the unchecked out-of-range read (undefined
behavior), never a crash diagnostic or an error value. -/
theorem C5_negative_token_unchecked_index {G V : Type} (env : JS2NativeEnv G V)
    (debugBuild : Bool) (g : G) (t : Int) (h : t < 0) :
    (∀ hin : (-t - 1).toNat < env.js2nativePointers.length,
        jsDollarLazy env debugBuild g [JSVal.int32 t]
          = Outcome.ok (env.js2nativePointers.get ⟨(-t - 1).toNat, hin⟩ g))
    ∧ (env.js2nativePointers.length ≤ (-t - 1).toNat →
        jsDollarLazy env debugBuild g [JSVal.int32 t]
          = Outcome.undefinedBehavior (UBSite.tableIndex (-t - 1))) := by
  constructor
  · intro hin
    simp [jsDollarLazy, JSVal.isInt32, JSVal.asInt32, h, -Int.pred_toNat]
    rw [List.getElem?_eq_getElem hin]
  · intro hout
    simp [jsDollarLazy, JSVal.isInt32, JSVal.asInt32, h, -Int.pred_toNat]
    rw [List.getElem?_eq_none hout]

/-- C5 witness: token `-5` against the one-entry table of `exEnv` is an
unchecked access at index `4`, intercepted by no check. -/
theorem C5_witness :
    (-5 : Int) < 0
    ∧ exEnv.js2nativePointers.length ≤ (-(-5 : Int) - 1).toNat
    ∧ jsDollarLazy exEnv true () [JSVal.int32 (-5)]
      = Outcome.undefinedBehavior (UBSite.tableIndex 4) := by
  refine ⟨by decide, by decide, ?_⟩
  have h := (C5_negative_token_unchecked_index exEnv true () (-5) (by decide)).2 (by decide)
  simpa using h

/-- C6: in debug builds, a non-Int32 argument raises an assertion whose
message carries the textual form of the offending value, before any token
interpretation (the outcome does not depend on the environment, the table
or the payload bits); in optimized builds the check is absent and the
argument's payload is interpreted as the integer token unconditionally. -/
theorem C6_type_check_debug_only {G V : Type} (env : JS2NativeEnv G V) (g : G)
    (textual : String) (bits : Int) (rest : List JSVal) :
    jsDollarLazy env true g (JSVal.nonInt32 textual bits :: rest)
      = Outcome.assertionFailure (lazyAssertHead ++ textual)
    ∧ jsDollarLazy env false g (JSVal.nonInt32 textual bits :: rest)
      = jsDollarLazy env false g (JSVal.int32 bits :: rest) := by
  exact ⟨rfl, rfl⟩

/-- C7: whenever dispatch halts on an unresolvable token (a non-negative
token outside the dispatched tags), the halt carries a diagnostic naming
both the generator-bug cause and the external-misuse cause as the
distinguished alternatives, and the outcome is the terminal crash state —
in particular no value is ever returned from it. -/
theorem C7_halt_diagnostic {G V : Type} (env : JS2NativeEnv G V)
    (debugBuild : Bool) (g : G) (t : Int) (h0 : 0 ≤ t)
    (h1 : t ≠ ReadableStreamTag.Blob.toInt)
    (h2 : t ≠ ReadableStreamTag.File.toInt)
    (h3 : t ≠ ReadableStreamTag.Bytes.toInt) :
    ∃ m : String,
      jsDollarLazy env debugBuild g [JSVal.int32 t] = Outcome.crash m
      ∧ mentionsGeneratorBug m = true
      ∧ mentionsExternalMisuse m = true
      ∧ ∀ v : V, jsDollarLazy env debugBuild g [JSVal.int32 t] ≠ Outcome.ok v := by
  have hneg : ¬ t < 0 := not_lt.mpr h0
  simp only [ReadableStreamTag.toInt] at h1 h2 h3
  have hrun : jsDollarLazy env debugBuild g [JSVal.int32 t]
      = Outcome.crash (crashMessage debugBuild) := by
    simp [jsDollarLazy, JSVal.isInt32, JSVal.asInt32, ReadableStreamTag.toInt,
      hneg, h1, h2, h3]
  refine ⟨crashMessage debugBuild, hrun, ?_, ?_, ?_⟩
  · cases debugBuild <;> simp [crashMessage] <;> decide
  · cases debugBuild <;> simp [crashMessage] <;> decide
  · intro v hv
    rw [hrun] at hv
    exact Outcome.noConfusion hv

/-- C7 witness: token `3` (the Direct placeholder) in a release build
halts with a diagnostic naming both causes. -/
theorem C7_witness :
    (0 : Int) ≤ 3
    ∧ (3 : Int) ≠ ReadableStreamTag.Blob.toInt
    ∧ (3 : Int) ≠ ReadableStreamTag.File.toInt
    ∧ (3 : Int) ≠ ReadableStreamTag.Bytes.toInt
    ∧ ∃ m : String,
        jsDollarLazy exEnv false () [JSVal.int32 3] = Outcome.crash m
        ∧ mentionsGeneratorBug m = true
        ∧ mentionsExternalMisuse m = true
        ∧ ∀ v : Nat, jsDollarLazy exEnv false () [JSVal.int32 3] ≠ Outcome.ok v := by
  refine ⟨by decide, by decide, by decide, by decide, ?_⟩
  exact C7_halt_diagnostic exEnv false () 3 (by decide) (by decide) (by decide) (by decide)

/-- C8: for every valid token (a negative in-range token or a dispatched
reserved tag), dispatch returns a value, and two dispatches with the same
token and the same global object yield the same result — the dispatcher
reads no per-call state, so the outcome is unchanged even across call
frames that differ in their extra arguments. -/
theorem C8_valid_token_deterministic {G V : Type} (env : JS2NativeEnv G V)
    (debugBuild : Bool) (g : G) (t : Int)
    (hvalid : (t < 0 ∧ (-t - 1).toNat < env.js2nativePointers.length)
      ∨ t = ReadableStreamTag.Blob.toInt
      ∨ t = ReadableStreamTag.File.toInt
      ∨ t = ReadableStreamTag.Bytes.toInt) :
    (∃ v : V, jsDollarLazy env debugBuild g [JSVal.int32 t] = Outcome.ok v)
    ∧ ∀ rest1 rest2 : List JSVal,
        jsDollarLazy env debugBuild g (JSVal.int32 t :: rest1)
          = jsDollarLazy env debugBuild g (JSVal.int32 t :: rest2) := by
  refine ⟨?_, fun rest1 rest2 => rfl⟩
  rcases hvalid with ⟨hneg, hin⟩ | h | h | h
  · refine ⟨env.js2nativePointers.get ⟨(-t - 1).toNat, hin⟩ g, ?_⟩
    simp [jsDollarLazy, JSVal.isInt32, JSVal.asInt32, hneg, -Int.pred_toNat]
    rw [List.getElem?_eq_getElem hin]
  · exact ⟨env.ByteBlob_JSReadableStreamSource_load g, by
      simp [jsDollarLazy, JSVal.isInt32, JSVal.asInt32, h, ReadableStreamTag.toInt]⟩
  · exact ⟨env.FileReader_JSReadableStreamSource_load g, by
      simp [jsDollarLazy, JSVal.isInt32, JSVal.asInt32, h, ReadableStreamTag.toInt]⟩
  · exact ⟨env.ByteStream_JSReadableStreamSource_load g, by
      simp [jsDollarLazy, JSVal.isInt32, JSVal.asInt32, h, ReadableStreamTag.toInt]⟩

/-- C8 witness: the File tag (`2`) is a valid token in `exEnv`, and
dispatching it returns a value. -/
theorem C8_witness :
    (((2 : Int) < 0 ∧ (-(2 : Int) - 1).toNat < exEnv.js2nativePointers.length)
      ∨ (2 : Int) = ReadableStreamTag.Blob.toInt
      ∨ (2 : Int) = ReadableStreamTag.File.toInt
      ∨ (2 : Int) = ReadableStreamTag.Bytes.toInt)
    ∧ ∃ v : Nat, jsDollarLazy exEnv true () [JSVal.int32 2] = Outcome.ok v := by
  refine ⟨by decide, ?_⟩
  exact (C8_valid_token_deterministic exEnv true () 2 (by decide)).1

/-- C9: the dispatched reserved-tag subset is exactly `1` (Blob), `2`
(File) and `4` (Bytes); the non-negative tokens `0` (JavaScript), `3`
(Direct) and every integer `≥ 5` reach `CRASH_WITH_INFO`. -/
theorem C9_dispatched_subset_exact {G V : Type} (env : JS2NativeEnv G V)
    (debugBuild : Bool) (g : G) :
    jsDollarLazy env debugBuild g [JSVal.int32 1]
      = Outcome.ok (env.ByteBlob_JSReadableStreamSource_load g)
    ∧ jsDollarLazy env debugBuild g [JSVal.int32 2]
      = Outcome.ok (env.FileReader_JSReadableStreamSource_load g)
    ∧ jsDollarLazy env debugBuild g [JSVal.int32 4]
      = Outcome.ok (env.ByteStream_JSReadableStreamSource_load g)
    ∧ jsDollarLazy env debugBuild g [JSVal.int32 0]
      = Outcome.crash (crashMessage debugBuild)
    ∧ jsDollarLazy env debugBuild g [JSVal.int32 3]
      = Outcome.crash (crashMessage debugBuild)
    ∧ ∀ t : Int, 5 ≤ t →
        jsDollarLazy env debugBuild g [JSVal.int32 t]
          = Outcome.crash (crashMessage debugBuild) := by
  refine ⟨?_, ?_, ?_, ?_, ?_, fun t ht => ?_⟩
  · simp [jsDollarLazy, JSVal.isInt32, JSVal.asInt32, ReadableStreamTag.toInt]
  · simp [jsDollarLazy, JSVal.isInt32, JSVal.asInt32, ReadableStreamTag.toInt]
  · simp [jsDollarLazy, JSVal.isInt32, JSVal.asInt32, ReadableStreamTag.toInt]
  · simp [jsDollarLazy, JSVal.isInt32, JSVal.asInt32, ReadableStreamTag.toInt]
  · simp [jsDollarLazy, JSVal.isInt32, JSVal.asInt32, ReadableStreamTag.toInt]
  · have hneg : ¬ t < 0 := by omega
    have h1 : t ≠ 1 := by omega
    have h2 : t ≠ 2 := by omega
    have h4 : t ≠ 4 := by omega
    simp [jsDollarLazy, JSVal.isInt32, JSVal.asInt32, ReadableStreamTag.toInt,
      hneg, h1, h2, h4]

/-- C9 witness: in a release build against `exEnv2`, token `0` and token
`9` both crash with the release diagnostic. -/
theorem C9_witness :
    jsDollarLazy exEnv2 false () [JSVal.int32 0] = Outcome.crash releaseCrashMessage
    ∧ (5 : Int) ≤ 9
    ∧ jsDollarLazy exEnv2 false () [JSVal.int32 9] = Outcome.crash releaseCrashMessage := by
  have h := C9_dispatched_subset_exact exEnv2 false ()
  refine ⟨?_, by decide, ?_⟩
  · simpa [crashMessage] using h.2.2.2.1
  · simpa [crashMessage] using h.2.2.2.2.2 9 (by decide)

/-- C10: the dispatch outcome depends only on the first argument and the
global object — arguments beyond the first are never read, so call frames
agreeing on the first argument produce identical outcomes — and no arity
check precedes the read of argument 0: an empty call frame goes straight
to the unchecked argument read. -/
theorem C10_first_argument_only {G V : Type} (env : JS2NativeEnv G V)
    (debugBuild : Bool) (g : G) :
    (∀ (a : JSVal) (rest1 rest2 : List JSVal),
        jsDollarLazy env debugBuild g (a :: rest1)
          = jsDollarLazy env debugBuild g (a :: rest2))
    ∧ jsDollarLazy env debugBuild g []
      = Outcome.undefinedBehavior UBSite.argumentRead := by
  exact ⟨fun a rest1 rest2 => rfl, rfl⟩
